import Mathlib

/-!
Shallow embedding of `src/session.py` (class `Session`, SQLite-backed HTTP
sessions).

Modelling choices:
* the `sessions` table is a `List SessionRecord` in insertion order; SQL
  `SELECT ... WHERE id = ?` is `List.find?` on the `id` column;
* SQLite datetimes are natural numbers (`datetime('now')` is a parameter
  `now`; `datetime('now', validity)` is `now + validity`, since the modifier
  grammar adds a duration);
* `os.environ.get('REMOTE_ADDR', '')` is an explicit parameter `remoteAddr`;
* the entropy source of `_create_session_id` (pid, timestamp, random int
  hashed with SHA-256) is a candidate stream `gen : Nat → String`; the
  unbounded `while True` loop is given explicit fuel, `none` modelling
  non-termination within that fuel;
* `pickle`/`bz2` are external collaborators, modelled by an explicit `Codec`
  record (`dumps`/`loads`/`compress`/`decompress`) over blobs `List Nat`;
* a Python accessor that would raise on a missing row (`fetchone()` returning
  `None` and then being subscripted) is modelled as returning `none`.
-/

/-- A row of the `sessions` table: columns `id, data, created_time,
accessed_time, expire_time, remote_addr` (see `CREATE TABLE` in
`Session.__init__`). -/
structure SessionRecord where
  id : String
  data : Option (List Nat)
  created_time : Nat
  accessed_time : Nat
  expire_time : Nat
  remote_addr : String
deriving DecidableEq, Repr

/-- The `sessions` table, rows in insertion order. -/
abbrev Store := List SessionRecord

/-- `SELECT * FROM sessions WHERE id = ?` (first matching row; `id` is the
primary key, so at most one row matches in any store the code builds). -/
def lookupRow (store : Store) (sid : String) : Option SessionRecord :=
  store.find? (fun r => r.id == sid)

/-- `DELETE FROM sessions WHERE expire_time < datetime('now')` — the sweep run
at construction. -/
def sweep (now : Nat) (store : Store) : Store :=
  store.filter (fun r => !(decide (r.expire_time < now)))

/-- The row built by `_insert_session_record`: `data` is left NULL,
`created_time = accessed_time = now`, `expire_time = datetime('now',
validity)`, `remote_addr` from the environment. -/
def newRecord (now validity : Nat) (addr sid : String) : SessionRecord :=
  { id := sid, data := none, created_time := now, accessed_time := now,
    expire_time := now + validity, remote_addr := addr }

/-- `Session._insert_session_record`. -/
def insertRecord (now validity : Nat) (addr sid : String) (store : Store) :
    Store :=
  store ++ [newRecord now validity addr sid]

/-- `Session._update_session_record`: `UPDATE sessions SET accessed_time =
datetime('now'), expire_time = datetime('now', validity), remote_addr = ?
WHERE id = ?`. -/
def updateRecord (now validity : Nat) (addr sid : String) (store : Store) :
    Store :=
  store.map (fun r =>
    if r.id == sid then
      { r with accessed_time := now, expire_time := now + validity,
               remote_addr := addr }
    else r)

/-- `DELETE FROM sessions WHERE id = ?` (`Session.delete`). -/
def deleteSession (sid : String) (store : Store) : Store :=
  store.filter (fun r => !(r.id == sid))

/-- The `while True` loop body of `_create_session_id`, with attempt counter
`k` and explicit fuel: generate candidate `gen k`, keep it iff it is not in
the table, otherwise retry. -/
def createSessionIdAux (gen : Nat → String) (store : Store) :
    Nat → Nat → Option String
  | _, 0 => none
  | k, fuel + 1 =>
      if (lookupRow store (gen k)).isSome then
        createSessionIdAux gen store (k + 1) fuel
      else
        some (gen k)

/-- `Session._create_session_id`: retry generation until the candidate is
absent from the table (`none` = the loop did not finish within `fuel`
iterations). -/
def createSessionId (gen : Nat → String) (store : Store) (fuel : Nat) :
    Option String :=
  createSessionIdAux gen store 0 fuel

/-- `_create_session_id` followed by `_insert_session_record`, returning the
new sid and the new table. -/
def mintAndInsert (gen : Nat → String) (fuel now validity : Nat)
    (addr : String) (store : Store) : Option (String × Store) :=
  (createSessionId gen store fuel).map
    (fun nsid => (nsid, insertRecord now validity addr nsid store))

/-- `Session.__init__` after the schema bootstrap: sweep expired rows, then
resolve `sidArg` exactly as the Python branches do.  Returns the resolved sid
(`self.sid`, exposed by `get_id`) and the table after commit; `none` models
the id-generation loop running forever. -/
def sessionInit (gen : Nat → String) (fuel now validity : Nat)
    (remoteAddr : String) (sidArg : Option String) (ipmatch : Bool)
    (store : Store) : Option (String × Store) :=
  let store1 := sweep now store
  match sidArg with
  | some s =>
      match lookupRow store1 s with
      | none => mintAndInsert gen fuel now validity remoteAddr store1
      | some r =>
          if ipmatch then
            if remoteAddr == r.remote_addr then
              some (s, updateRecord now validity remoteAddr s store1)
            else
              mintAndInsert gen fuel now validity remoteAddr store1
          else
            some (s, updateRecord now validity remoteAddr s store1)
  | none => mintAndInsert gen fuel now validity remoteAddr store1

/-- External serializer/compressor pair (`pickle` and `bz2`); payloads have
type `α`, blobs are byte lists. -/
structure Codec (α : Type) where
  dumps : α → List Nat
  loads : List Nat → α
  compress : List Nat → List Nat
  decompress : List Nat → List Nat

/-- The in-memory part of a `Session` instance: `self.sid` after resolution
and the `self.data` payload cache (`none` = Python `None`). -/
structure SessionInst (α : Type) where
  sid : String
  data : Option α
deriving DecidableEq, Repr

/-- `Session.get_id`. -/
def get_id {α : Type} (inst : SessionInst α) : String :=
  inst.sid

/-- `Session.get_created_time`; `none` models the error raised when the
lookup returns no row (`fetchone()` is `None` and subscripting it raises). -/
def get_created_time (store : Store) (sid : String) : Option Nat :=
  (lookupRow store sid).map (fun r => r.created_time)

/-- `Session.get_accessed_time`; `none` models the raise on a missing row. -/
def get_accessed_time (store : Store) (sid : String) : Option Nat :=
  (lookupRow store sid).map (fun r => r.accessed_time)

/-- `Session.get_expire_time`; `none` models the raise on a missing row. -/
def get_expire_time (store : Store) (sid : String) : Option Nat :=
  (lookupRow store sid).map (fun r => r.expire_time)

/-- `Session.get_remote_addr`; `none` models the raise on a missing row. -/
def get_remote_addr (store : Store) (sid : String) : Option String :=
  (lookupRow store sid).map (fun r => r.remote_addr)

/-- `Session.get_data`: if the cache is empty, read the row's `data` column;
a missing row or a NULL column leaves the cache empty and returns `none`
(Python `None`), otherwise decompress, deserialize, cache and return. The
first component is the instance after the call (the cache may be filled). -/
def get_data {α : Type} (c : Codec α) (store : Store) (inst : SessionInst α) :
    SessionInst α × Option α :=
  match inst.data with
  | some d => (inst, some d)
  | none =>
      match lookupRow store inst.sid with
      | none => (inst, none)
      | some r =>
          match r.data with
          | none => (inst, none)
          | some blob =>
              let v := c.loads (c.decompress blob)
              ({ inst with data := some v }, some v)

/-- `Session.set_data` (the argument may be Python `None`, i.e. `none`). -/
def set_data {α : Type} (inst : SessionInst α) (d : Option α) :
    SessionInst α :=
  { inst with data := d }

/-- `Session.reset_data`. -/
def reset_data {α : Type} (inst : SessionInst α) : SessionInst α :=
  { inst with data := none }

/-- `UPDATE sessions SET data = ? WHERE id = ?` (the write in
`Session.save_data`). -/
def updateData (sid : String) (blob : List Nat) (store : Store) : Store :=
  store.map (fun r => if r.id == sid then { r with data := some blob } else r)

/-- `Session.save_data`: a no-op when the cache is `None`, otherwise
serialize, compress and overwrite the `data` column of the current row. -/
def save_data {α : Type} (c : Codec α) (inst : SessionInst α)
    (store : Store) : Store :=
  match inst.data with
  | none => store
  | some d => updateData inst.sid (c.compress (c.dumps d)) store

/-- A concrete codec over `Nat` payloads, used to instantiate generic
theorems: serialization is the singleton list, compression the identity;
`loads` is a left inverse of `dumps` just as unpickling inverts pickling. -/
def natCodec : Codec Nat :=
  { dumps := fun n => [n], loads := fun l => l.headD 0,
    compress := id, decompress := id }

/-- A concrete stored row whose `data` column holds the `natCodec` encoding
of the payload `42`, used to instantiate generic theorems. -/
def storedRow : SessionRecord :=
  { id := "s", data := some [42], created_time := 0, accessed_time := 0,
    expire_time := 100, remote_addr := "a" }

/-! ### Lookup lemmas over the table operations -/

theorem lookupRow_cons (a : SessionRecord) (t : Store) (sid : String) :
    lookupRow (a :: t) sid = if a.id == sid then some a else lookupRow t sid := by
  simp only [lookupRow, List.find?]
  cases h : a.id == sid <;> simp [h]

theorem lookupRow_append_left (l1 l2 : Store) (sid : String)
    (r : SessionRecord) (h : lookupRow l1 sid = some r) :
    lookupRow (l1 ++ l2) sid = some r := by
  induction l1 with
  | nil => simp [lookupRow] at h
  | cons hd tl ih =>
      rw [lookupRow_cons] at h
      rw [List.cons_append, lookupRow_cons]
      by_cases hh : hd.id == sid
      · rw [if_pos hh] at h ⊢; exact h
      · rw [if_neg hh] at h ⊢; exact ih h

theorem lookupRow_append_right (l1 l2 : Store) (sid : String)
    (h : lookupRow l1 sid = none) :
    lookupRow (l1 ++ l2) sid = lookupRow l2 sid := by
  induction l1 with
  | nil => rfl
  | cons hd tl ih =>
      rw [lookupRow_cons] at h
      rw [List.cons_append, lookupRow_cons]
      by_cases hh : hd.id == sid
      · rw [if_pos hh] at h; exact absurd h (by simp)
      · rw [if_neg hh] at h ⊢; exact ih h

/-- An insert leaves every previously found row findable unchanged. -/
theorem lookupRow_insert_of_found (now validity : Nat) (addr nsid sid : String)
    (store : Store) (r : SessionRecord) (h : lookupRow store sid = some r) :
    lookupRow (insertRecord now validity addr nsid store) sid = some r :=
  lookupRow_append_left store _ sid r h

/-- After inserting a fresh id, looking that id up yields the new row. -/
theorem lookupRow_insert_self (now validity : Nat) (addr nsid : String)
    (store : Store) (h : lookupRow store nsid = none) :
    lookupRow (insertRecord now validity addr nsid store) nsid
      = some (newRecord now validity addr nsid) := by
  rw [insertRecord, lookupRow_append_right store _ nsid h, lookupRow_cons]
  simp [newRecord]

theorem updateRecord_cons (now validity : Nat) (addr sid : String)
    (hd : SessionRecord) (tl : Store) :
    updateRecord now validity addr sid (hd :: tl)
      = (if hd.id == sid then
          { hd with accessed_time := now, expire_time := now + validity,
                    remote_addr := addr }
         else hd) :: updateRecord now validity addr sid tl := rfl

theorem updateData_cons (sid : String) (blob : List Nat)
    (hd : SessionRecord) (tl : Store) :
    updateData sid blob (hd :: tl)
      = (if hd.id == sid then { hd with data := some blob } else hd)
          :: updateData sid blob tl := rfl

/-- `_update_session_record` rewrites exactly the columns
`accessed_time`, `expire_time`, `remote_addr` of the looked-up row. -/
theorem lookupRow_update_self (now validity : Nat) (addr sid : String)
    (store : Store) :
    lookupRow (updateRecord now validity addr sid store) sid
      = (lookupRow store sid).map (fun r =>
          { r with accessed_time := now, expire_time := now + validity,
                   remote_addr := addr }) := by
  induction store with
  | nil => rfl
  | cons hd tl ih =>
      by_cases hh : hd.id == sid
      · rw [updateRecord_cons, if_pos hh, lookupRow_cons]
        simp [lookupRow_cons, hh]
      · rw [updateRecord_cons, if_neg hh, lookupRow_cons, if_neg hh, ih,
          lookupRow_cons, if_neg hh]

/-- The `save_data` UPDATE rewrites exactly the `data` column of the
looked-up row. -/
theorem lookupRow_updateData_self (sid : String) (blob : List Nat)
    (store : Store) :
    lookupRow (updateData sid blob store) sid
      = (lookupRow store sid).map (fun r => { r with data := some blob }) := by
  induction store with
  | nil => rfl
  | cons hd tl ih =>
      by_cases hh : hd.id == sid
      · rw [updateData_cons, if_pos hh, lookupRow_cons]
        simp [lookupRow_cons, hh]
      · rw [updateData_cons, if_neg hh, lookupRow_cons, if_neg hh, ih,
          lookupRow_cons, if_neg hh]

/-- A row found before a filter and kept by it is still the row found
afterwards. -/
theorem lookupRow_filter_some (p : SessionRecord → Bool) (store : Store)
    (sid : String) (r : SessionRecord) (hfind : lookupRow store sid = some r)
    (hp : p r = true) :
    lookupRow (store.filter p) sid = some r := by
  induction store with
  | nil => simp [lookupRow] at hfind
  | cons hd tl ih =>
      rw [lookupRow_cons] at hfind
      by_cases hh : hd.id == sid
      · rw [if_pos hh] at hfind
        cases hfind
        simp [List.filter_cons, hp, lookupRow_cons, hh]
      · rw [if_neg hh] at hfind
        by_cases hph : p hd
        · simp [List.filter_cons, hph, lookupRow_cons, hh, ih hfind]
        · simp only [List.filter_cons, hph, Bool.false_eq_true, if_neg,
            if_false]
          exact ih hfind

/-- After `delete()`, the lookup for the deleted id finds nothing. -/
theorem lookupRow_delete_self (sid : String) (store : Store) :
    lookupRow (deleteSession sid store) sid = none := by
  induction store with
  | nil => rfl
  | cons hd tl ih =>
      by_cases hh : hd.id == sid
      · simpa [deleteSession, List.filter_cons, hh] using ih
      · simpa [deleteSession, List.filter_cons, hh, lookupRow_cons] using ih

/-- Deleting twice is deleting once. -/
theorem deleteSession_idem (sid : String) (store : Store) :
    deleteSession sid (deleteSession sid store) = deleteSession sid store := by
  induction store with
  | nil => rfl
  | cons hd tl ih =>
      by_cases hh : hd.id == sid
      · simp [deleteSession, List.filter_cons, hh, ih]
      · simp [deleteSession, List.filter_cons, hh, ih]

/-- Membership in the post-sweep table: kept iff present and not expired. -/
theorem mem_sweep (now : Nat) (store : Store) (r : SessionRecord) :
    r ∈ sweep now store ↔ r ∈ store ∧ ¬ r.expire_time < now := by
  simp [sweep, List.mem_filter]

/-- A row the sweep kept findable was not expired. -/
theorem expire_of_lookupRow_sweep (now : Nat) (store : Store) (sid : String)
    (r : SessionRecord) (h : lookupRow (sweep now store) sid = some r) :
    ¬ r.expire_time < now := by
  have hmem : r ∈ sweep now store := List.mem_of_find?_eq_some h
  exact ((mem_sweep now store r).mp hmem).2

/-- An unexpired row found before the sweep is still found unchanged after
it. -/
theorem lookupRow_sweep_of_alive (now : Nat) (store : Store) (sid : String)
    (r : SessionRecord) (h : lookupRow store sid = some r)
    (ha : ¬ r.expire_time < now) :
    lookupRow (sweep now store) sid = some r :=
  lookupRow_filter_some _ store sid r h (by simpa using ha)

theorem createSessionIdAux_step (gen : Nat → String) (store : Store)
    (k fuel : Nat) :
    createSessionIdAux gen store k (fuel + 1)
      = if (lookupRow store (gen k)).isSome then
          createSessionIdAux gen store (k + 1) fuel
        else some (gen k) := rfl

/-- Whatever `_create_session_id` returns was absent from the table. -/
theorem createSessionIdAux_fresh (gen : Nat → String) (store : Store) :
    ∀ fuel k sid, createSessionIdAux gen store k fuel = some sid →
      lookupRow store sid = none := by
  intro fuel
  induction fuel with
  | zero => intro k sid h; simp [createSessionIdAux] at h
  | succ n ih =>
      intro k sid h
      simp only [createSessionIdAux] at h
      by_cases hc : (lookupRow store (gen k)).isSome
      · rw [if_pos hc] at h
        exact ih _ _ h
      · rw [if_neg hc] at h
        cases h
        exact Option.not_isSome_iff_eq_none.mp hc

theorem createSessionId_fresh (gen : Nat → String) (store : Store)
    (fuel : Nat) (sid : String) (h : createSessionId gen store fuel = some sid) :
    lookupRow store sid = none :=
  createSessionIdAux_fresh gen store fuel 0 sid h

/-- If attempt `k + j` would be fresh, the loop started at attempt `k`
succeeds within `j + 1` iterations with a fresh id. -/
theorem createSessionIdAux_succeeds (gen : Nat → String) (store : Store) :
    ∀ j k, lookupRow store (gen (k + j)) = none →
      ∃ sid, createSessionIdAux gen store k (j + 1) = some sid ∧
        lookupRow store sid = none := by
  intro j
  induction j with
  | zero =>
      intro k h
      have h' : lookupRow store (gen k) = none := by simpa using h
      refine ⟨gen k, ?_, h'⟩
      rw [createSessionIdAux_step, if_neg (by simp [h'])]
  | succ n ih =>
      intro k h
      by_cases hc : (lookupRow store (gen k)).isSome
      · have h' : lookupRow store (gen ((k + 1) + n)) = none := by
          have he : (k + 1) + n = k + (n + 1) := by omega
          rw [he]; exact h
        obtain ⟨sid, hs, hf⟩ := ih (k + 1) h'
        refine ⟨sid, ?_, hf⟩
        rw [createSessionIdAux_step, if_pos hc]
        exact hs
      · have hnone : lookupRow store (gen k) = none :=
          Option.not_isSome_iff_eq_none.mp hc
        refine ⟨gen k, ?_, hnone⟩
        rw [createSessionIdAux_step, if_neg (by simp [hnone])]

/-- If the candidate stream ever produces an id absent from the table, the
generation loop terminates with a fresh id. -/
theorem createSessionId_terminates (gen : Nat → String) (store : Store)
    (h : ∃ n, lookupRow store (gen n) = none) :
    ∃ fuel sid, createSessionId gen store fuel = some sid ∧
      lookupRow store sid = none := by
  obtain ⟨n, hn⟩ := h
  have h0 : lookupRow store (gen (0 + n)) = none := by simpa using hn
  obtain ⟨sid, hs, hf⟩ := createSessionIdAux_succeeds gen store n 0 h0
  exact ⟨n + 1, sid, hs, hf⟩

/-- Every id the generation loop can return is a candidate from the
stream. -/
theorem createSessionIdAux_range (gen : Nat → String) (store : Store) :
    ∀ fuel k sid, createSessionIdAux gen store k fuel = some sid →
      ∃ m, sid = gen m := by
  intro fuel
  induction fuel with
  | zero => intro k sid h; simp [createSessionIdAux] at h
  | succ n ih =>
      intro k sid h
      rw [createSessionIdAux_step] at h
      by_cases hc : (lookupRow store (gen k)).isSome
      · rw [if_pos hc] at h
        exact ih _ _ h
      · rw [if_neg hc] at h
        cases h
        exact ⟨k, rfl⟩

/-- Anatomy of a successful mint-and-insert: the new id was absent from the
table, came from the candidate stream, and the result appends exactly the
new row. -/
theorem mintAndInsert_spec (gen : Nat → String) (fuel now validity : Nat)
    (addr : String) (store : Store) (nsid : String) (store' : Store)
    (h : mintAndInsert gen fuel now validity addr store = some (nsid, store')) :
    lookupRow store nsid = none ∧ (∃ m, nsid = gen m)
      ∧ store' = insertRecord now validity addr nsid store := by
  unfold mintAndInsert at h
  cases hc : createSessionId gen store fuel with
  | none => rw [hc] at h; simp at h
  | some sid =>
      rw [hc] at h
      simp only [Option.map, Option.some.injEq, Prod.mk.injEq] at h
      obtain ⟨h1, h2⟩ := h
      subst h1
      exact ⟨createSessionId_fresh gen store fuel sid hc,
        createSessionIdAux_range gen store fuel 0 sid hc, h2.symm⟩

/-- C2 counterexample: open with the unknown identifier "b" on an empty
table while the candidate stream happens to produce exactly "b".  The loop
in `_create_session_id` only checks candidates against the table — never
against the caller's value — and "b" is absent from the table, so the
resolved identifier equals the caller-presented one and the caller-presented
identifier is inserted, refuting the claim at this input. -/
theorem C2_counterexample :
    sessionInit (fun _ => "b") 1 5 60 "a" (some "b") false []
        = some ("b", [newRecord 5 60 "a" "b"])
      ∧ lookupRow [newRecord 5 60 "a" "b"] "b"
        = some (newRecord 5 60 "a" "b") := by
  decide

/-- C2 (amended): for every construction with a caller-supplied string
identifier not present in the (post-sweep) store, the resolved identifier is
freshly minted from the candidate stream and absent from the table, and —
provided the stream never emits the caller-presented string, as the
SHA-256-based generator does except with negligible probability — it differs
from the presented identifier, which is never inserted. -/
theorem C2_amended_fresh_resolution (gen : Nat → String)
    (fuel now validity : Nat) (remoteAddr s : String) (ipmatch : Bool)
    (store : Store) (nsid : String) (store' : Store)
    (hmiss : lookupRow (sweep now store) s = none)
    (hgen : ∀ k, gen k ≠ s)
    (hinit : sessionInit gen fuel now validity remoteAddr (some s) ipmatch
        store = some (nsid, store')) :
    nsid ≠ s ∧ lookupRow (sweep now store) nsid = none
      ∧ store' = insertRecord now validity remoteAddr nsid (sweep now store)
      ∧ lookupRow store' s = none := by
  have hinit' : mintAndInsert gen fuel now validity remoteAddr
      (sweep now store) = some (nsid, store') := by
    unfold sessionInit at hinit
    simpa [hmiss] using hinit
  obtain ⟨hfresh, ⟨m, hm⟩, hstore⟩ :=
    mintAndInsert_spec _ _ _ _ _ _ _ _ hinit'
  have hne : nsid ≠ s := by rw [hm]; exact hgen m
  refine ⟨hne, hfresh, hstore, ?_⟩
  rw [hstore, insertRecord, lookupRow_append_right _ _ _ hmiss, lookupRow_cons]
  simp [newRecord, lookupRow, hne]

/-- C2 witness: the amended theorem at a concrete input (stream "n",
presented identifier "b", empty table). -/
theorem C2_witness :
    ("n" : String) ≠ "b"
      ∧ lookupRow (sweep 5 []) "n" = none
      ∧ [newRecord 5 60 "a" "n"] = insertRecord 5 60 "a" "n" (sweep 5 [])
      ∧ lookupRow [newRecord 5 60 "a" "n"] "b" = none :=
  C2_amended_fresh_resolution (fun _ => "n") 1 5 60 "a" "b" false [] "n"
    [newRecord 5 60 "a" "n"] (by decide)
    (by intro k; show ("n" : String) ≠ "b"; decide) (by decide)

/-- With a candidate stream that always emits the already-stored identifier
"c0", the generation loop never returns, whatever the fuel. -/
theorem createSessionIdAux_const_collision :
    ∀ fuel k,
      createSessionIdAux (fun _ => "c0") [newRecord 0 10 "a" "c0"] k fuel
        = none := by
  intro fuel
  induction fuel with
  | zero => intro k; rfl
  | succ n ih =>
      intro k
      rw [createSessionIdAux_step, if_pos (by decide)]
      exact ih (k + 1)

/-- C4 counterexample: the identifier-generation loop is `while True` with no
retry bound, so the generation-plus-insert sequence does not terminate for
every store state: with the concrete store holding id "c0" and a candidate
stream stuck on "c0", no amount of fuel makes `_create_session_id` return. -/
theorem C4_counterexample :
    ¬ ∃ fuel sid,
        createSessionId (fun _ => "c0") [newRecord 0 10 "a" "c0"] fuel
          = some sid := by
  rintro ⟨fuel, sid, h⟩
  rw [createSessionId, createSessionIdAux_const_collision fuel 0] at h
  exact Option.noConfusion h

/-- C4 (amended): generation retries on collision in an unbounded loop; it
terminates exactly when the candidate stream eventually produces an
identifier absent from the table, and then the chosen identifier is fresh,
so the subsequent insert targets a non-existing primary key (the code
contains no handler for a duplicate-key insert error). -/
theorem C4_amended_terminates_on_fresh_candidate (gen : Nat → String)
    (store : Store) (now validity : Nat) (addr : String)
    (h : ∃ n, lookupRow store (gen n) = none) :
    ∃ fuel sid, createSessionId gen store fuel = some sid
      ∧ lookupRow store sid = none
      ∧ lookupRow (insertRecord now validity addr sid store) sid
          = some (newRecord now validity addr sid) := by
  obtain ⟨fuel, sid, hs, hf⟩ := createSessionId_terminates gen store h
  exact ⟨fuel, sid, hs, hf,
    lookupRow_insert_self now validity addr sid store hf⟩

/-- C4 witness: the amended theorem at a concrete input (constant fresh
candidate "f", empty table). -/
theorem C4_witness :
    ∃ fuel sid, createSessionId (fun _ => "f") [] fuel = some sid
      ∧ lookupRow [] sid = none
      ∧ lookupRow (insertRecord 5 60 "a" sid []) sid
          = some (newRecord 5 60 "a" sid) :=
  C4_amended_terminates_on_fresh_candidate (fun _ => "f") [] 5 60 "a"
    ⟨0, by decide⟩

/-- C8: when the in-memory payload is absent, `save_data` leaves the entire
table unchanged — every row and every column, in particular a previously
stored blob is not cleared. -/
theorem C8_save_data_noop_when_absent {α : Type} (c : Codec α)
    (inst : SessionInst α) (store : Store) (h : inst.data = none) :
    save_data c inst store = store := by
  unfold save_data
  rw [h]

/-- C8 witness: a store holding a blob for "s" is untouched by `save_data`
from an instance whose payload is absent. -/
theorem C8_witness :
    save_data natCodec { sid := "s", data := (none : Option Nat) } [storedRow]
      = [storedRow] :=
  C8_save_data_noop_when_absent natCodec _ [storedRow] rfl

/-- C1: constructing a Session with a caller-supplied identifier that exists
in the (post-sweep) store, with ipmatch enabled: if the current client
address equals the stored `remote_addr`, the identifier is preserved and the
existing record is updated in place; if the addresses differ, a new
identifier distinct from the old one is minted, a new record is inserted,
and the old record remains findable in the table unchanged. -/
theorem C1_ipmatch_resolution (gen : Nat → String) (fuel now validity : Nat)
    (remoteAddr s : String) (store : Store) (r : SessionRecord)
    (hfound : lookupRow (sweep now store) s = some r) :
    (remoteAddr = r.remote_addr →
      sessionInit gen fuel now validity remoteAddr (some s) true store
          = some (s, updateRecord now validity remoteAddr s (sweep now store))
        ∧ lookupRow (updateRecord now validity remoteAddr s (sweep now store))
            s
          = some { r with accessed_time := now,
                          expire_time := now + validity,
                          remote_addr := remoteAddr })
    ∧ (remoteAddr ≠ r.remote_addr →
      ∀ nsid store',
        sessionInit gen fuel now validity remoteAddr (some s) true store
            = some (nsid, store') →
        nsid ≠ s ∧ lookupRow store' s = some r
          ∧ lookupRow store' nsid
            = some (newRecord now validity remoteAddr nsid)) := by
  constructor
  · intro heq
    have hbeq : (remoteAddr == r.remote_addr) = true := by simp [heq]
    constructor
    · unfold sessionInit
      simp only [hfound, hbeq, if_true]
    · rw [lookupRow_update_self, hfound]
      rfl
  · intro hne nsid store' hinit
    have hbeq : (remoteAddr == r.remote_addr) = false := by simp [hne]
    have hinit' : mintAndInsert gen fuel now validity remoteAddr
        (sweep now store) = some (nsid, store') := by
      unfold sessionInit at hinit
      simpa [hfound, hbeq] using hinit
    obtain ⟨hfresh, _, hstore⟩ := mintAndInsert_spec _ _ _ _ _ _ _ _ hinit'
    have hne2 : nsid ≠ s := by
      intro he
      rw [he, hfound] at hfresh
      exact Option.noConfusion hfresh
    refine ⟨hne2, ?_, ?_⟩
    · rw [hstore]
      exact lookupRow_insert_of_found _ _ _ _ _ _ _ hfound
    · rw [hstore]
      exact lookupRow_insert_self _ _ _ _ _ hfresh

/-- C1 witness: both branches of the theorem at concrete inputs — matching
address "a" preserves "s" and updates; mismatching address "b" mints "n",
inserts it, and keeps the old row. -/
theorem C1_witness :
    (sessionInit (fun _ => "n") 3 5 60 "a" (some "s") true
        [newRecord 0 60 "a" "s"]
      = some ("s", updateRecord 5 60 "a" "s"
          (sweep 5 [newRecord 0 60 "a" "s"])))
    ∧ (("n" : String) ≠ "s"
        ∧ lookupRow [newRecord 0 60 "a" "s", newRecord 5 60 "b" "n"] "s"
          = some (newRecord 0 60 "a" "s")
        ∧ lookupRow [newRecord 0 60 "a" "s", newRecord 5 60 "b" "n"] "n"
          = some (newRecord 5 60 "b" "n")) :=
  ⟨((C1_ipmatch_resolution (fun _ => "n") 3 5 60 "a" "s"
      [newRecord 0 60 "a" "s"] (newRecord 0 60 "a" "s") (by decide)).1
      rfl).1,
   (C1_ipmatch_resolution (fun _ => "n") 3 5 60 "b" "s"
      [newRecord 0 60 "a" "s"] (newRecord 0 60 "a" "s") (by decide)).2
      (by decide) "n" [newRecord 0 60 "a" "s", newRecord 5 60 "b" "n"]
      (by decide)⟩

/-- C3: (1) the row inserted at creation satisfies `expire_time =
accessed_time + validity`; (2) after `_update_session_record` every row
either was already in the table or satisfies that invariant; (3) the sweep
removes every row whose `expire_time` is strictly before now; (4) a lookup
run after the sweep — which is how `__init__` resolves identifiers — never
returns an expired row. -/
theorem C3_expiry_invariant (now validity : Nat) (addr sid s : String)
    (store : Store) :
    (newRecord now validity addr sid).expire_time
        = (newRecord now validity addr sid).accessed_time + validity
      ∧ (∀ r' ∈ updateRecord now validity addr sid store,
          r' ∈ store ∨ r'.expire_time = r'.accessed_time + validity)
      ∧ (∀ r ∈ store, r.expire_time < now → r ∉ sweep now store)
      ∧ (∀ r, lookupRow (sweep now store) s = some r →
          ¬ r.expire_time < now) := by
  refine ⟨rfl, ?_, ?_, ?_⟩
  · intro r' hr'
    simp only [updateRecord, List.mem_map] at hr'
    obtain ⟨r0, hr0, heq⟩ := hr'
    by_cases hid : r0.id == sid
    · rw [if_pos hid] at heq
      right
      rw [← heq]
    · rw [if_neg hid] at heq
      left
      rw [← heq]
      exact hr0
  · intro r hr hexp hmem
    exact ((mem_sweep now store r).mp hmem).2 hexp
  · intro r h
    exact expire_of_lookupRow_sweep now store s r h

/-- C3 witness: the insert invariant at concrete values, and a concretely
expired row removed by a concrete sweep. -/
theorem C3_witness :
    (newRecord 5 60 "a" "s").expire_time
        = (newRecord 5 60 "a" "s").accessed_time + 60
      ∧ newRecord 0 5 "a" "e" ∉ sweep 10 [newRecord 0 5 "a" "e"] :=
  ⟨(C3_expiry_invariant 5 60 "a" "s" "x" []).1,
   (C3_expiry_invariant 10 60 "a" "x" "x" [newRecord 0 5 "a" "e"]).2.2.1
     (newRecord 0 5 "a" "e") (by decide) (by decide)⟩

/-- C5: `delete()` is idempotent (a second delete of the same identifier is
the identity on the table), and each of the four field accessors invoked
after the delete, or for any identifier with no row, yields the
SessionNotFound condition (`none`) rather than a stale value. -/
theorem C5_delete_idempotent_and_accessors (sid : String) (store : Store) :
    deleteSession sid (deleteSession sid store) = deleteSession sid store
      ∧ get_created_time (deleteSession sid store) sid = none
      ∧ get_accessed_time (deleteSession sid store) sid = none
      ∧ get_expire_time (deleteSession sid store) sid = none
      ∧ get_remote_addr (deleteSession sid store) sid = none
      ∧ (lookupRow store sid = none →
          get_created_time store sid = none
            ∧ get_accessed_time store sid = none
            ∧ get_expire_time store sid = none
            ∧ get_remote_addr store sid = none) := by
  refine ⟨deleteSession_idem sid store, ?_, ?_, ?_, ?_, ?_⟩
  · simp [get_created_time, lookupRow_delete_self]
  · simp [get_accessed_time, lookupRow_delete_self]
  · simp [get_expire_time, lookupRow_delete_self]
  · simp [get_remote_addr, lookupRow_delete_self]
  · intro h
    simp [get_created_time, get_accessed_time, get_expire_time,
      get_remote_addr, h]

/-- C5 witness: double delete on a concrete store, and the four accessors on
an identifier with no row. -/
theorem C5_witness :
    deleteSession "s" (deleteSession "s" [storedRow])
        = deleteSession "s" [storedRow]
      ∧ (get_created_time [] "x" = none ∧ get_accessed_time [] "x" = none
          ∧ get_expire_time [] "x" = none
          ∧ get_remote_addr [] "x" = none) :=
  ⟨(C5_delete_idempotent_and_accessors "s" [storedRow]).1,
   (C5_delete_idempotent_and_accessors "x" []).2.2.2.2.2 rfl⟩

/-- C6 counterexample: take the payload X = Python `None` while a blob
(encoding 42 under `natCodec`) is already stored for "s".  `set_data(X)`
followed by `save_data()` writes nothing, and a new instance opened with the
same identifier reads back 42, not X — so the round-trip claimed "for every
payload value X" fails at X = `None`. -/
theorem C6_counterexample :
    save_data natCodec
        (set_data { sid := "s", data := (none : Option Nat) } none)
        [storedRow]
      = [storedRow]
    ∧ sessionInit (fun _ => "g") 1 1 100 "a" (some "s") false [storedRow]
      = some ("s", [{ storedRow with accessed_time := 1, expire_time := 101 }])
    ∧ (get_data natCodec
        [{ storedRow with accessed_time := 1, expire_time := 101 }]
        { sid := "s", data := (none : Option Nat) }).2 = some 42
    ∧ some 42 ≠ (none : Option Nat) := by
  refine ⟨rfl, by decide, rfl, by decide⟩

/-- C6 (amended): for every present payload X = some x — the absent value
`None` excepted, see the counterexample — if unpickling inverts pickling on
x, then `set_data(some x)`, `save_data()`, and a new instance constructed
with the same identifier (while the row is unexpired) has `get_data()`
return exactly x: the blob round-trips through the stored `data` column. -/
theorem C6_amended_roundtrip {α : Type} (c : Codec α) (x : α)
    (gen : Nat → String) (fuel now2 validity : Nat) (addr s : String)
    (d0 : Option α) (store : Store) (r : SessionRecord)
    (hrt : c.loads (c.decompress (c.compress (c.dumps x))) = x)
    (hfound : lookupRow store s = some r)
    (halive : ¬ r.expire_time < now2) :
    ∃ store2,
      sessionInit gen fuel now2 validity addr (some s) false
          (save_data c (set_data { sid := s, data := d0 } (some x)) store)
        = some (s, store2)
      ∧ (get_data c store2 { sid := s, data := (none : Option α) }).2
        = some x := by
  have hsave : save_data c (set_data { sid := s, data := d0 } (some x)) store
      = updateData s (c.compress (c.dumps x)) store := rfl
  have h1 : lookupRow (updateData s (c.compress (c.dumps x)) store) s
      = some { r with data := some (c.compress (c.dumps x)) } := by
    rw [lookupRow_updateData_self, hfound]
    rfl
  have h2 : lookupRow
      (sweep now2 (updateData s (c.compress (c.dumps x)) store)) s
      = some { r with data := some (c.compress (c.dumps x)) } :=
    lookupRow_sweep_of_alive now2 _ s _ h1 (by simpa using halive)
  refine ⟨updateRecord now2 validity addr s
      (sweep now2 (updateData s (c.compress (c.dumps x)) store)), ?_, ?_⟩
  · rw [hsave]
    unfold sessionInit
    simp only [h2]
    simp
  · have h3 : lookupRow (updateRecord now2 validity addr s
        (sweep now2 (updateData s (c.compress (c.dumps x)) store))) s
        = some { r with data := some (c.compress (c.dumps x)),
                        accessed_time := now2,
                        expire_time := now2 + validity,
                        remote_addr := addr } := by
      rw [lookupRow_update_self, h2]
      rfl
    simp [get_data, h3, hrt]

/-- C6 witness: the amended theorem at a concrete input (payload 7,
`natCodec`, one unexpired row for "s"). -/
theorem C6_witness :
    ∃ store2,
      sessionInit (fun _ => "g") 1 1 100 "a" (some "s") false
          (save_data natCodec
            (set_data { sid := "s", data := (none : Option Nat) } (some 7))
            [newRecord 0 100 "a" "s"])
        = some ("s", store2)
      ∧ (get_data natCodec store2
          { sid := "s", data := (none : Option Nat) }).2 = some 7 :=
  C6_amended_roundtrip natCodec 7 (fun _ => "g") 1 1 100 "a" "s" none
    [newRecord 0 100 "a" "s"] (newRecord 0 100 "a" "s") rfl (by decide)
    (by decide)

/-- C7 counterexample: with X = Python `None` and a stored blob for "s",
`set_data(X)` then `get_data()` on the same instance returns the decoded
stored blob (42), not X — so "returns X for every payload value X" fails at
X = `None`. -/
theorem C7_counterexample :
    (get_data natCodec [storedRow]
        (set_data { sid := "s", data := (none : Option Nat) } none)).2
      = some 42
    ∧ some 42 ≠ (none : Option Nat) :=
  ⟨rfl, by decide⟩

/-- C7 (amended): for every present payload some x — the absent value
excepted, see the counterexample — `set_data(some x)` then `get_data()` on
the same instance returns exactly x and leaves the instance at the set
state, for every store.  Both operations take the store as a read-only
argument and return none: this is the embedding of "performs no write to the
backing store", so a freshly opened instance against the same identifier
reads the same, unchanged store. -/
theorem C7_amended_set_then_get {α : Type} (c : Codec α)
    (inst : SessionInst α) (x : α) (store : Store) :
    (get_data c store (set_data inst (some x))).2 = some x
      ∧ (get_data c store (set_data inst (some x))).1
        = set_data inst (some x) :=
  ⟨rfl, rfl⟩

/-- C9: when the row for the identifier is absent, or present with a NULL
`data` column, `get_data` returns the distinguished no-payload value `none`
as its ordinary, total result and leaves the cache empty (the returned
instance still has `data = none`, so a subsequent call re-queries the
store); the four field accessors on a missing row instead all surface the
SessionNotFound failure `none`. -/
theorem C9_get_data_absent {α : Type} (c : Codec α) (store : Store)
    (sid : String) (r : SessionRecord) :
    (lookupRow store sid = none →
      get_data c store { sid := sid, data := none }
          = ({ sid := sid, data := none }, none)
        ∧ get_created_time store sid = none
        ∧ get_accessed_time store sid = none
        ∧ get_expire_time store sid = none
        ∧ get_remote_addr store sid = none)
    ∧ (lookupRow store sid = some r → r.data = none →
      get_data c store { sid := sid, data := none }
        = ({ sid := sid, data := none }, none)) := by
  constructor
  · intro h
    refine ⟨?_, ?_, ?_, ?_, ?_⟩
    · simp [get_data, h]
    · simp [get_created_time, h]
    · simp [get_accessed_time, h]
    · simp [get_expire_time, h]
    · simp [get_remote_addr, h]
  · intro h hd
    simp [get_data, h, hd]

/-- C9 witness: the missing-row branch on the empty table and the NULL-data
branch on a freshly inserted row (whose `data` column is NULL). -/
theorem C9_witness :
    (get_data natCodec [] { sid := "x", data := (none : Option Nat) }
        = ({ sid := "x", data := none }, none)
      ∧ get_created_time [] "x" = none ∧ get_accessed_time [] "x" = none
      ∧ get_expire_time [] "x" = none ∧ get_remote_addr [] "x" = none)
    ∧ get_data natCodec [newRecord 0 60 "a" "s"]
        { sid := "s", data := (none : Option Nat) }
      = ({ sid := "s", data := none }, none) :=
  ⟨(C9_get_data_absent natCodec [] "x" storedRow).1 rfl,
   (C9_get_data_absent natCodec [newRecord 0 60 "a" "s"] "s"
      (newRecord 0 60 "a" "s")).2 (by decide) rfl⟩

/-- C10: `set_data none` and `reset_data` produce identical instances; after
either, `get_data` falls back to the stored blob (when one exists) rather
than returning the set value; `save_data` afterwards writes nothing; and
`save_data` can never persist an absent payload: every row it produces is
either an untouched old row or carries the compressed serialization of the
present cached value. -/
theorem C10_none_payload {α : Type} (c : Codec α) (inst : SessionInst α)
    (store : Store) (r : SessionRecord) (b : List Nat) :
    set_data inst none = reset_data inst
      ∧ (lookupRow store inst.sid = some r → r.data = some b →
          (get_data c store (set_data inst none)).2
            = some (c.loads (c.decompress b)))
      ∧ save_data c (set_data inst none) store = store
      ∧ (∀ r' ∈ save_data c inst store,
          r' ∈ store
            ∨ ∃ y, inst.data = some y
                ∧ r'.data = some (c.compress (c.dumps y))) := by
  refine ⟨rfl, ?_, rfl, ?_⟩
  · intro h hd
    simp [get_data, set_data, h, hd]
  · intro r' hr'
    cases hdat : inst.data with
    | none =>
        left
        unfold save_data at hr'
        rw [hdat] at hr'
        exact hr'
    | some y =>
        unfold save_data at hr'
        rw [hdat] at hr'
        simp only [updateData, List.mem_map] at hr'
        obtain ⟨r0, hr0, heq⟩ := hr'
        by_cases hid : r0.id == inst.sid
        · rw [if_pos hid] at heq
          right
          exact ⟨y, rfl, by rw [← heq]⟩
        · rw [if_neg hid] at heq
          left
          rw [← heq]
          exact hr0

/-- C10 witness: equality of `set_data none` and `reset_data` on a concrete
instance, and fallback of `get_data` to the stored blob 42 afterwards. -/
theorem C10_witness :
    set_data { sid := "s", data := some 7 } none
        = reset_data { sid := "s", data := (some 7 : Option Nat) }
      ∧ (get_data natCodec [storedRow]
          (set_data { sid := "s", data := (some 7 : Option Nat) } none)).2
        = some 42 :=
  ⟨(C10_none_payload natCodec { sid := "s", data := some 7 } [storedRow]
      storedRow [42]).1,
   (C10_none_payload natCodec { sid := "s", data := some 7 } [storedRow]
      storedRow [42]).2.1 (by decide) rfl⟩
